import Mathlib

/-!
Shallow embedding of the agent event/orchestration core of the incident
war-room repository: `agents/base.py` (event model, `BaseAgent`),
`agents/commander.py` (`IncidentCommander`), and `agents/llm_wrapper.py`
(`ReasoningLLM`).

Modelling conventions:
* Python dicts whose keys are known strings become structures; the open
  `metadata` bag and the `incident` dict become association lists.
* Asynchronous generators become finite lists of yielded items; a stream
  that can raise mid-iteration is a pair of the chunks delivered before the
  failure and an optional terminal error.
* Side effects are made explicit: a method that emits events returns the
  list of events it emitted, in emission order; listener callables are
  identified by opaque ids and the fan-out of `emit_event` is returned as
  the list of (listener id, event) invocations, in invocation order.
* Wall-clock timestamps (`datetime.now()`) are not modelled: no claim
  depends on them.
* Python `raise` becomes `Except`; Python truthiness of optional strings
  (`if not api_key`, `if reasoning:`) is modelled by `truthyStr`.
-/

namespace WarRoom

/-- The six event kinds of `EventType` in `agents/base.py`. -/
inductive EventType
| thinking
| action
| observation
| theory
| challenge
| decision
deriving DecidableEq, Repr

/-- The `.value` string tag of each `EventType` member. -/
def EventType.value : EventType → String
| .thinking => "thinking"
| .action => "action"
| .observation => "observation"
| .theory => "theory"
| .challenge => "challenge"
| .decision => "decision"

/-- Keyword arguments of a tool call (`**kwargs`), modelled as an
association list of string-valued arguments. -/
def Kwargs : Type := List (String × String)

/-- A delegation record `{"area": .., "assigned_to": .., "status": ..}`
built in `IncidentCommander.delegate_investigation`. -/
structure Task where
  area : String
  assigned_to : String
  status : String
deriving DecidableEq, Repr

/-- A value stored in an event's open `metadata` dict. The variants cover
every value the embedded code ever places there. -/
inductive MetaVal
| str (s : String)
| strList (l : List String)
| kw (k : List (String × String))
| rat (q : ℚ)
| num (n : Nat)
| bool (b : Bool)
| task (t : Task)
deriving DecidableEq, Repr

/-- An event metadata dict. -/
def Metadata : Type := List (String × MetaVal)

instance : DecidableEq Metadata := by
  unfold Metadata
  infer_instance

instance : Repr Metadata := by
  unfold Metadata
  infer_instance

instance : DecidableEq Kwargs := by
  unfold Kwargs
  infer_instance

/-- `AgentEvent` of `agents/base.py`: agent name, event type, free-text
content and metadata. The constructor-assigned wall-clock `timestamp` is
not modelled. -/
structure AgentEvent where
  agent_name : String
  event_type : EventType
  content : String
  metadata : Metadata
deriving DecidableEq, Repr

/-- A chunk yielded by the reasoning stream: Python dicts
`{"type": "reasoning"|"content", "text": ..., "model": ...}`. -/
inductive ChunkKind
| reasoning
| content
deriving DecidableEq, Repr

/-- One streamed reasoning/content chunk. -/
structure Chunk where
  kind : ChunkKind
  text : String
  model : String
deriving DecidableEq, Repr

/-- One record of `conversation_history`:
`{"prompt": .., "reasoning": .., "response": ..}`. -/
structure HistEntry where
  prompt : String
  reasoning : String
  response : String
deriving DecidableEq, Repr

/-- A role-tagged chat message `{"role": .., "content": ..}`. -/
structure Message where
  role : String
  content : String
deriving DecidableEq, Repr

/-- An LLM client as seen from an agent (duck-typed `llm_client`): its
`think_and_respond` call yields a finite list of chunks and then either
terminates normally (`none`) or raises, described by an error message
(`some msg`). -/
structure LLMClient where
  stream : List Message → List Chunk × Option String

/-- Python exceptions raised by the embedded code. -/
inductive PyError
| valueError (msg : String)
| typeError (msg : String)
| streamError (msg : String)
deriving DecidableEq, Repr

/-- Message text of an error, as interpolated into `f"... {e} ..."`. -/
def PyError.msg : PyError → String
| .valueError m => m
| .typeError m => m
| .streamError m => m

/-- Python truthiness of an optional string: `None` and `""` are falsy. -/
def truthyStr : Option String → Bool
| none => false
| some s => s ≠ ""

/-- Lowercasing of a string (`str.lower()` on the ASCII text used here). -/
def lowerStr (s : String) : String :=
  ⟨s.data.map Char.toLower⟩

/-- Whether `pat` occurs as a contiguous run at the head of `l`. -/
def headRun : List Char → List Char → Bool
| [], _ => true
| _ :: _, [] => false
| p :: ps, c :: cs => p = c && headRun ps cs

/-- Whether `pat` occurs as a contiguous run anywhere in `l`. -/
def hasRun (pat : List Char) : List Char → Bool
| [] => headRun pat []
| c :: cs => headRun pat (c :: cs) || hasRun pat cs

/-- Python `pat in s` substring containment. -/
def strContains (s pat : String) : Bool :=
  hasRun pat.data s.data

/-- `BaseAgent` state (`agents/base.py`). Listener callables are opaque:
they are identified by `Nat` ids, and invoking one is recorded as a
(listener id, event) pair. Tools return values of type `α`, stringified by
an explicitly passed `toStr` standing for Python `str`. -/
structure BaseAgent (α : Type) where
  name : String
  role : String
  llm_client : Option LLMClient
  event_listeners : List Nat
  tools : List (String × (Kwargs → α))
  conversation_history : List HistEntry

/-- `register_tool`: `self.tools[tool_name] = tool_callable` (dict
assignment: a later registration for the same name wins on lookup). -/
def BaseAgent.register_tool (a : BaseAgent α) (tool_name : String)
    (tool : Kwargs → α) : BaseAgent α :=
  { a with tools := (tool_name, tool) :: a.tools.filter (fun p => p.1 ≠ tool_name) }

/-- `add_event_listener`: appends the listener id. -/
def BaseAgent.add_event_listener (a : BaseAgent α) (listener : Nat) : BaseAgent α :=
  { a with event_listeners := a.event_listeners ++ [listener] }

/-- `emit_event`: constructs the event, then invokes every listener with
that same event, in list order (`for listener in self.event_listeners:
listener(event)`), and returns the event. The result records the returned
event and the listener invocations made before returning. -/
def BaseAgent.emit_event (a : BaseAgent α) (event_type : EventType)
    (content : String) (metadata : Metadata) : AgentEvent × List (Nat × AgentEvent) :=
  let event : AgentEvent := ⟨a.name, event_type, content, metadata⟩
  (event, a.event_listeners.map (fun listener => (listener, event)))

/-- The listener invocations triggered by a sequence of emitted events:
each emission notifies every listener in registration order. -/
def BaseAgent.notifications (a : BaseAgent α) (events : List AgentEvent) :
    List (Nat × AgentEvent) :=
  (events.map (fun e => a.event_listeners.map (fun listener => (listener, e)))).flatten

/-- Event built by `think` (THINKING). -/
def mkThink (name content : String) (metadata : Metadata) : AgentEvent :=
  ⟨name, .thinking, content, metadata⟩

/-- Event built by `observe` (OBSERVATION). -/
def mkObserve (name content : String) (metadata : Metadata) : AgentEvent :=
  ⟨name, .observation, content, metadata⟩

/-- Event built by `decide` (DECISION). -/
def mkDecide (name content : String) (metadata : Metadata) : AgentEvent :=
  ⟨name, .decision, content, metadata⟩

/-- `use_tool` (`agents/base.py`): raises `ValueError` if the name is not
registered (before emitting anything); otherwise emits an ACTION event
describing the invocation and awaits the tool. The subsequent call at
`base.py:128` then passes the metadata dict as a second positional
argument to `observe(self, observation, **metadata)`, which accepts only
one positional argument, so it raises `TypeError` after evaluating its
arguments (including `str(result)[:100]`): no OBSERVATION event is ever
emitted and the tool's result is never returned. The returned list is the
events emitted by the call, in emission order. -/
def BaseAgent.use_tool (a : BaseAgent α) (toStr : α → String)
    (tool_name : String) (kwargs : Kwargs) :
    Except PyError α × List AgentEvent :=
  match a.tools.lookup tool_name with
  | none => (.error (.valueError ("Tool \x27" ++ tool_name ++ "\x27 not registered")), [])
  | some tool =>
    let actionEvent : AgentEvent :=
      ⟨a.name, .action, "Using tool: " ++ tool_name,
        [("tool", .str tool_name), ("args", .kw kwargs)]⟩
    let result := tool kwargs
    let _summary := (toStr result).take 100
    (.error (.typeError "observe() takes 2 positional arguments but 3 were given"),
      [actionEvent])

/-- Core of `llm_reason` (`agents/base.py`), shared by `BaseAgent` and the
commander (which inherits it): given the agent name, optional client and
current history, build the messages, consume the stream (each reasoning
chunk becomes a THINKING event tagged `llm_reasoning=True` when
`emit_reasoning`), and on normal completion append
`{prompt, reasoning, response}` to the history and return the concatenated
content. A client with no stream raises `ValueError`; a stream error
propagates after the events for the delivered chunks were emitted and
leaves the history unchanged. -/
def llmReasonCore (agentName : String) (client : Option LLMClient)
    (history : List HistEntry) (prompt : String) (system_context : Option String)
    (emit_reasoning : Bool) :
    Except PyError String × List HistEntry × List AgentEvent :=
  match client with
  | none =>
    (.error (.valueError ("Agent " ++ agentName ++ " has no LLM client configured")),
      history, [])
  | some c =>
    let messages : List Message :=
      (match system_context with
       | some sc => [⟨"system", sc⟩]
       | none => []) ++ [⟨"user", prompt⟩]
    let chunks := (c.stream messages).1
    let err := (c.stream messages).2
    let reasoning_parts := chunks.filterMap
      (fun ch => if ch.kind = .reasoning then some ch.text else none)
    let content_parts := chunks.filterMap
      (fun ch => if ch.kind = .content then some ch.text else none)
    let events :=
      if emit_reasoning then
        (chunks.filter (fun ch => ch.kind = .reasoning)).map
          (fun ch => mkThink agentName ch.text [("llm_reasoning", .bool true)])
      else []
    match err with
    | some e => (.error (.streamError e), history, events)
    | none =>
      let full_content := String.join content_parts
      (.ok full_content,
        history ++ [⟨prompt, String.join reasoning_parts, full_content⟩],
        events)

/-- `BaseAgent.llm_reason`: dispatches to `llmReasonCore` and threads the
updated agent (its `conversation_history`) back. -/
def BaseAgent.llm_reason (a : BaseAgent α) (prompt : String)
    (system_context : Option String) (emit_reasoning : Bool) :
    Except PyError String × BaseAgent α × List AgentEvent :=
  let r :=
    llmReasonCore a.name a.llm_client a.conversation_history prompt
      system_context emit_reasoning
  (r.1, { a with conversation_history := r.2.1 }, r.2.2)

/-- An incident, an opaque string-keyed dict read with `.get(key, default)`
(`agents/commander.py`). -/
def Incident : Type := List (String × String)

instance : DecidableEq Incident := by
  unfold Incident
  infer_instance

/-- Python `incident.get(key, default)`. -/
def Incident.get (i : Incident) (key default : String) : String :=
  (List.lookup key i).getD default

/-- Python truthiness check `if not incident` for a dict. -/
def Incident.isEmpty (i : Incident) : Bool :=
  i = ([] : List (String × String))

/-- The commander's working `context` dict. The keys the code touches are
`incident`, `investigation_priority` and `timeline`; `none` models an
absent key. -/
structure Ctx where
  incident : Option Incident
  investigation_priority : Option (List String)
  timeline : Option (List String)

/-- The driver-supplied `context` argument of `IncidentCommander.run`;
the code only reads `context.get("incident", {})`. -/
structure RunCtx where
  incident : Option Incident

/-- A theory record received from another agent (opaque dict). -/
def Theory : Type := List (String × String)

/-- `IncidentCommander` state: the inherited `BaseAgent` fields it uses
(name, role, llm client, listeners, conversation history) plus
`investigation_phase`, `theories` and `assigned_tasks`. The commander
never touches its (empty) tool dict during `run`, so tools are omitted. -/
structure Commander where
  name : String
  role : String
  llm_client : Option LLMClient
  event_listeners : List Nat
  context : Ctx
  conversation_history : List HistEntry
  investigation_phase : String
  theories : List Theory
  assigned_tasks : List Task

/-- `IncidentCommander.__init__`: name "Commander", role
"Incident Commander", phase "initial", empty theories and tasks. -/
def Commander.init (llm_client : Option LLMClient) : Commander :=
  { name := "Commander"
    role := "Incident Commander"
    llm_client := llm_client
    event_listeners := []
    context := ⟨none, none, none⟩
    conversation_history := []
    investigation_phase := "initial"
    theories := []
    assigned_tasks := [] }

/-- `assess_incident` (phase 1): reads symptom/severity/service with their
defaults, classifies the investigation priority by keyword matching on the
lowercased symptom, stores it in context under `investigation_priority`,
and emits two THINKING events, a branch-specific THINKING event and a
DECISION event stating the order. -/
def Commander.assess_incident (c : Commander) (incident : Incident) :
    Commander × List AgentEvent :=
  let symptom := incident.get "symptom" "Unknown issue"
  let severity := incident.get "severity" "unknown"
  let affected_service := incident.get "service" "unknown"
  let e1 := mkThink c.name "Beginning incident assessment..." []
  let e2 := mkThink c.name ("Incident: " ++ symptom ++ " on " ++ affected_service)
    [("severity", .str severity)]
  let branch :=
    if strContains (lowerStr symptom) "latency" then
      (mkThink c.name "Latency issue detected. Likely performance-related." [],
        ["metrics", "recent_changes", "logs"])
    else if strContains (lowerStr symptom) "error" then
      (mkThink c.name "Error spike detected. Likely code or infrastructure issue." [],
        ["logs", "recent_changes", "metrics"])
    else
      (mkThink c.name "Unclear symptom. Need comprehensive investigation." [],
        ["logs", "metrics", "recent_changes"])
  let investigation_priority := branch.2
  let c2 := { c with context :=
    { c.context with investigation_priority := some investigation_priority } }
  let e4 := mkDecide c.name
    ("Investigation priority: " ++ String.intercalate " > " investigation_priority)
    [("priority", .strList investigation_priority)]
  (c2, [e1, e2, branch.1, e4])

/-- `_map_area_to_agent`: fixed lookup table with default
"General Investigator". -/
def map_area_to_agent (area : String) : String :=
  (List.lookup area
    [("metrics", "System Investigator"), ("logs", "System Investigator"),
     ("recent_changes", "Code Detective"), ("git_history", "Code Detective")]).getD
    "General Investigator"

/-- One step of the delegation loop body: a THINKING event, the task
record appended to `assigned_tasks`, and an ACTION event carrying the
task. -/
def Commander.delegateStep (acc : Commander × List AgentEvent) (area : String) :
    Commander × List AgentEvent :=
  let st := acc.1
  let e1 := mkThink st.name ("Need to investigate: " ++ area) []
  let task : Task := ⟨area, map_area_to_agent area, "pending"⟩
  let st2 := { st with assigned_tasks := st.assigned_tasks ++ [task] }
  let e2 : AgentEvent :=
    ⟨st.name, .action,
      "Delegating " ++ area ++ " investigation to " ++ task.assigned_to,
      [("task", .task task)]⟩
  (st2, acc.2 ++ [e1, e2])

/-- `delegate_investigation` (phase 2): sets the phase to "delegating" and
runs the delegation loop over the stored priority order (default `[]`).
The trailing simulated `asyncio.sleep` is a no-op here. -/
def Commander.delegate_investigation (c : Commander) : Commander × List AgentEvent :=
  let c2 := { c with investigation_phase := "delegating" }
  let priority := c2.context.investigation_priority.getD []
  priority.foldl Commander.delegateStep (c2, [])

/-- `synthesize_findings` (phase 3): sets the phase to "synthesizing",
emits a THINKING event and (after the simulated wait) an OBSERVATION event
reporting the number of received theories. -/
def Commander.synthesize_findings (c : Commander) : Commander × List AgentEvent :=
  let c2 := { c with investigation_phase := "synthesizing" }
  (c2,
    [mkThink c2.name "Synthesizing findings from investigation teams..." [],
     mkObserve c2.name "Received theories from investigation teams"
       [("theory_count", .num c2.theories.length)]])

/-- `_fallback_root_cause_analysis`: rule-based root cause when the LLM is
unavailable. Returns the root-cause string together with the events the
method emits (the latency branch emits a pattern-tagged THINKING event). -/
def Commander.fallback_root_cause_analysis (c : Commander) (incident : Incident) :
    String × List AgentEvent :=
  if incident.isEmpty then
    ("Unknown - requires deeper investigation", [])
  else
    let symptom := lowerStr (incident.get "symptom" "")
    if strContains symptom "latency" then
      ("Database connection pool exhaustion due to recent config change",
        [mkThink c.name
          "Evidence pattern matches: latency spike + recent deploy + database metrics"
          [("pattern", .str "connection_pool_exhaustion")]])
    else if strContains symptom "error" then
      ("Increased error rate due to code deployment or external dependency failure", [])
    else
      ("Unknown - requires deeper investigation", [])

/-- The f-string prompt built in `determine_root_cause` for the LLM path. -/
def buildPrompt (incident : Incident) (priority : List String) : String :=
  "\nYou are an incident commander analyzing a production incident.\n\nINCIDENT DETAILS:\n- ID: "
    ++ incident.get "id" "unknown"
    ++ "\n- Symptom: " ++ incident.get "symptom" "unknown"
    ++ "\n- Severity: " ++ incident.get "severity" "unknown"
    ++ "\n- Service: " ++ incident.get "service" "unknown"
    ++ "\n- Impact: " ++ incident.get "impact" "unknown"
    ++ "\n\nINVESTIGATION AREAS EXAMINED:\n" ++ String.intercalate ", " priority
    ++ "\n\nBased on the incident symptoms and investigation areas, determine the most likely root cause.\nProvide your analysis and the root cause determination.\n"

/-- The system-context string of the LLM path of `determine_root_cause`. -/
def commanderSystemContext : String :=
  "You are a senior SRE and incident commander with deep expertise in:\n- Distributed systems debugging\n- Performance analysis\n- Root cause analysis\n- Production incident response\n\nAnalyze incidents systematically and provide actionable root cause determinations."

/-- Rendering of `f"{confidence:.0%}"` for the confidence constants the
code uses (both 0.85 and 0.5 make `confidence * 100` an integer). -/
def formatPct (q : ℚ) : String :=
  toString (q * 100).num ++ "%"

/-- The closing THINKING and DECISION events of `determine_root_cause`. -/
def concludeEvents (name root_cause : String) (confidence : ℚ) : List AgentEvent :=
  [mkThink name ("Root cause analysis complete. Confidence: " ++ formatPct confidence)
     [("confidence", .rat confidence)],
   mkDecide name ("ROOT CAUSE: " ++ root_cause)
     [("confidence", .rat confidence), ("root_cause", .str root_cause)]]

/-- `determine_root_cause` (phase 4): sets the phase to "concluding"; with
an LLM client, calls `llm_reason` on the structured prompt — on success the
trimmed response is the root cause with confidence 0.85, and on any raised
exception a THINKING event notes the fallback and the rule-based path is
used with confidence 0.5; with no client the rule-based path is used
directly with confidence 0.5. Always ends with the confidence THINKING
event and the ROOT CAUSE decision event, and returns the root-cause
string, the updated state and the emitted events in order. -/
def Commander.determine_root_cause (c : Commander) :
    String × Commander × List AgentEvent :=
  let c1 := { c with investigation_phase := "concluding" }
  let e1 := mkThink c1.name "Analyzing all evidence to determine root cause..." []
  let incident := c1.context.incident.getD []
  match c1.llm_client with
  | some _ =>
    let e2 := mkThink c1.name "Using LLM reasoning to analyze incident..." []
    let prompt := buildPrompt incident (c1.context.investigation_priority.getD [])
    let lr :=
      llmReasonCore c1.name c1.llm_client c1.conversation_history prompt
        (some commanderSystemContext) true
    let llmEvents := lr.2.2
    let c2 := { c1 with conversation_history := lr.2.1 }
    match lr.1 with
    | .ok response =>
      let root_cause := response.trim
      (root_cause, c2,
        [e1, e2] ++ llmEvents ++ concludeEvents c2.name root_cause (85 / 100))
    | .error err =>
      let eFail := mkThink c2.name
        ("LLM reasoning failed: " ++ err.msg ++ ". Falling back to rule-based analysis.") []
      let fb := c2.fallback_root_cause_analysis incident
      (fb.1, c2,
        [e1, e2] ++ llmEvents ++ [eFail] ++ fb.2 ++ concludeEvents c2.name fb.1 (1 / 2))
  | none =>
    let fb := c1.fallback_root_cause_analysis incident
    (fb.1, c1, [e1] ++ fb.2 ++ concludeEvents c1.name fb.1 (1 / 2))

/-- The result mapping returned by `IncidentCommander.run`. -/
structure RunResult where
  status : String
  root_cause : String
  timeline : List String
deriving DecidableEq, Repr

/-- `IncidentCommander.run`: reads the incident from the driver context
(default `{}`), stores it in the working context, runs the four phases in
order — assess, delegate, synthesize, conclude — and returns
`{"status": "resolved", "root_cause": .., "timeline": ..}` together with
the final state and the full event trace. -/
def Commander.run (c : Commander) (runCtx : RunCtx) :
    RunResult × Commander × List AgentEvent :=
  let incident := runCtx.incident.getD []
  let c0 := { c with context := { c.context with incident := some incident } }
  let a := c0.assess_incident incident
  let d := a.1.delegate_investigation
  let s := d.1.synthesize_findings
  let r := s.1.determine_root_cause
  (⟨"resolved", r.1, r.2.1.context.timeline.getD []⟩, r.2.1,
    a.2 ++ d.2 ++ s.2 ++ r.2.2)

/-- The delta of one streamed backend chunk (`chunk.choices[0].delta`):
optional `reasoning_content` and optional `content`. -/
structure Delta where
  reasoning_content : Option String
  content : Option String
deriving DecidableEq, Repr

/-- One raw streamed chunk from the backend; `choices` may be empty, in
which case the wrapper skips the chunk. -/
structure RawChunk where
  choices : List Delta
deriving DecidableEq, Repr

/-- The complete message of a non-streaming backend response
(`completion.choices[0].message`). -/
structure RespMessage where
  reasoning_content : Option String
  content : Option String
deriving DecidableEq, Repr

/-- The chat-completion backend behind `AsyncOpenAI` as `ReasoningLLM`
uses it: for a message list it either streams raw chunks or returns one
complete response message, depending on the `stream` flag. -/
structure Backend where
  streamResp : List Message → List RawChunk
  fullResp : List Message → RespMessage

/-- `ReasoningLLM` configuration state after a successful `__init__`. -/
structure RLConfig where
  model : String
  base_url : String
  api_key : String
  min_thinking_tokens : Nat
  max_thinking_tokens : Nat
deriving DecidableEq, Repr

/-- Python `a or b` on optional strings: `a` when truthy, else `b`. -/
def pyOrStr (a b : Option String) : Option String :=
  if truthyStr a then a else b

/-- `os.getenv` over an explicit process environment. -/
def getenv (env : List (String × String)) (key : String) : Option String :=
  List.lookup key env

/-- The API-key resolution of `ReasoningLLM.__init__`: the explicit
argument when it is not `None`, else
`os.getenv("NVIDIA_API_KEY") or os.getenv("NGC_API_KEY")`. -/
def resolveKey (env : List (String × String)) (api_key : Option String) :
    Option String :=
  match api_key with
  | none => pyOrStr (getenv env "NVIDIA_API_KEY") (getenv env "NGC_API_KEY")
  | some k => some k

/-- `ReasoningLLM.__init__`: defaults the base URL, resolves the API key
(explicit argument if not `None`, else `NVIDIA_API_KEY or NGC_API_KEY`
from the environment), and raises `ValueError` when the resolved key is
falsy (`None` or empty). -/
def ReasoningLLM.init (env : List (String × String)) (model : String)
    (base_url api_key : Option String)
    (min_thinking_tokens max_thinking_tokens : Nat) : Except PyError RLConfig :=
  let base_url := base_url.getD "https://integrate.api.nvidia.com/v1"
  let key := resolveKey env api_key
  if truthyStr key then
    .ok { model := model, base_url := base_url, api_key := key.getD ""
          min_thinking_tokens := min_thinking_tokens
          max_thinking_tokens := max_thinking_tokens }
  else
    .error (.valueError
      "No API key found. Set NVIDIA_API_KEY or NGC_API_KEY environment variable")

/-- The system-message injection of `think_and_respond`: when no system
turn is present, prepend `{"role": "system", "content": "/think"}`. -/
def addThinkSystem (messages : List Message) : List Message :=
  if messages.any (fun m => m.role = "system") then messages
  else ⟨"system", "/think"⟩ :: messages

/-- The chunks yielded for one raw streamed chunk: skip it when `choices`
is empty; otherwise yield a reasoning chunk when `reasoning_content` is
truthy, then a content chunk when `delta.content` is truthy. -/
def yieldForRaw (model : String) (ch : RawChunk) : List Chunk :=
  match ch.choices with
  | [] => []
  | d :: _ =>
    (if truthyStr d.reasoning_content
     then [⟨.reasoning, d.reasoning_content.getD "", model⟩] else [])
    ++ (if truthyStr d.content
        then [⟨.content, d.content.getD "", model⟩] else [])

/-- `ReasoningLLM.think_and_respond`: injects the `/think` system turn if
needed, calls the backend, and yields kind-tagged chunks — per streamed
delta when `stream` is true, or from the single response message when
`stream` is false. -/
def RLConfig.think_and_respond (cfg : RLConfig) (backend : Backend)
    (messages : List Message) (stream : Bool) : List Chunk :=
  let messages := addThinkSystem messages
  if stream then
    ((backend.streamResp messages).map (yieldForRaw cfg.model)).flatten
  else
    let r := backend.fullResp messages
    (if truthyStr r.reasoning_content
     then [⟨.reasoning, r.reasoning_content.getD "", cfg.model⟩] else [])
    ++ (if truthyStr r.content
        then [⟨.content, r.content.getD "", cfg.model⟩] else [])

/-- The message list `simple_query` builds: an optional system turn
followed by the user turn. -/
def queryMessages (prompt : String) (system_message : Option String) : List Message :=
  (match system_message with
   | some s => [⟨"system", s⟩]
   | none => []) ++ [⟨"user", prompt⟩]

/-- `ReasoningLLM.simple_query`: builds the optional-system + user message
list, drains `think_and_respond` with `stream=True`, keeps only content
chunks and concatenates their text. -/
def RLConfig.simple_query (cfg : RLConfig) (backend : Backend) (prompt : String)
    (system_message : Option String) : String :=
  String.join
    ((cfg.think_and_respond backend (queryMessages prompt system_message) true).filterMap
      (fun ch => if ch.kind = .content then some ch.text else none))

/-! Concrete fixtures used to instantiate the theorems below. -/

/-- A concrete tool callable. -/
def toolW : Kwargs → String := fun _ => "RESULT"

/-- A concrete agent with two listeners, one registered tool and a
non-empty conversation history, and no LLM client. -/
def agentW : BaseAgent String :=
  { name := "A"
    role := "investigator"
    llm_client := none
    event_listeners := [0, 1]
    tools := [("search", toolW)]
    conversation_history := [⟨"p0", "r0", "a0"⟩] }

/-- An LLM client whose stream always raises before yielding anything. -/
def clientFailW : LLMClient := ⟨fun _ => ([], some "boom")⟩

/-- A commander with no LLM client. -/
def commanderW : Commander := Commander.init none

/-- A commander whose LLM client always fails. -/
def commanderFailW : Commander := Commander.init (some clientFailW)

/-- The canonical latency-spike incident of the demo scenario. -/
def incLatW : Incident :=
  [("symptom", "API latency spike - p99 latency increased from 200ms to 3000ms"),
   ("severity", "high"), ("service", "user-api")]

/-- An error-rate incident. -/
def incErrW : Incident := [("symptom", "500 errors returned")]

/-- An incident with an unclassified symptom. -/
def incOtherW : Incident := [("symptom", "users report weirdness")]

/-- An incident whose symptom mentions both latency and errors. -/
def incBothW : Incident := [("symptom", "API latency spike and 500 errors")]

/-- A synthetic backend that streams reasoning chunks "a", "b" followed by
content chunks "c", "d", whatever the messages. -/
def backendW : Backend :=
  ⟨fun _ =>
     [⟨[⟨some "a", none⟩]⟩, ⟨[⟨some "b", none⟩]⟩,
      ⟨[⟨none, some "c"⟩]⟩, ⟨[⟨none, some "d"⟩]⟩],
   fun _ => ⟨none, none⟩⟩

/-- A concrete streaming-client configuration. -/
def cfgW : RLConfig :=
  ⟨"nvidia/llama-3.3-nemotron-super-49b-v1.5",
   "https://integrate.api.nvidia.com/v1", "key", 512, 2048⟩

/-! Claim theorems. -/

/-- C5: every call to `emit_event` invokes each registered listener exactly
once, with the very event object that `emit_event` returns (no copy, no
filtering), in registration order; the fan-out is part of the call itself,
so it completes before the event is handed back to the caller. The
invocation list pairs the listeners, in order, with the returned event. -/
theorem emit_event_listener_fanout {α : Type} (a : BaseAgent α)
    (event_type : EventType) (content : String) (metadata : Metadata) :
    (a.emit_event event_type content metadata).2 =
      a.event_listeners.map
        (fun listener => (listener, (a.emit_event event_type content metadata).1)) ∧
    (a.emit_event event_type content metadata).2.map Prod.fst = a.event_listeners ∧
    ∀ p ∈ (a.emit_event event_type content metadata).2,
      p.2 = (a.emit_event event_type content metadata).1 := by
  refine ⟨rfl, ?_, ?_⟩
  · simp only [BaseAgent.emit_event, List.map_map]
    exact List.map_id a.event_listeners
  · intro p hp
    simp only [BaseAgent.emit_event, List.mem_map] at hp
    obtain ⟨l, _, rfl⟩ := hp
    rfl

/-- C5 witness: the fan-out of a concrete emission on `agentW`. -/
theorem emit_event_listener_fanout_witness :
    (agentW.emit_event .thinking "t" []).2 =
      agentW.event_listeners.map
        (fun listener => (listener, (agentW.emit_event .thinking "t" []).1)) ∧
    (agentW.emit_event .thinking "t" []).2.map Prod.fst = agentW.event_listeners ∧
    ∀ p ∈ (agentW.emit_event .thinking "t" []).2,
      p.2 = (agentW.emit_event .thinking "t" []).1 :=
  emit_event_listener_fanout agentW .thinking "t" []

/-- C1: the claim does not hold of the code — at the failing input,
`agentW` with its registered tool "search" and arguments `{"q": "x"}`,
`use_tool` emits the ACTION event, awaits the tool, and then the `observe`
call at `base.py:128` raises `TypeError` because the metadata dict is
passed positionally to a `**metadata`-only signature: no OBSERVATION event
is emitted and the tool's result is not returned, against the claimed (and
spec-stated) success path. -/
theorem use_tool_observe_positional_type_error :
    agentW.use_tool id "search" [("q", "x")] =
      (.error (.typeError "observe() takes 2 positional arguments but 3 were given"),
       [⟨agentW.name, .action, "Using tool: " ++ "search",
          [("tool", .str "search"), ("args", .kw [("q", "x")])]⟩]) := rfl

/-- C7: `use_tool` on an unregistered tool name fails with the
tool-not-registered `ValueError`, emits no events at all, and therefore
invokes no listener. -/
theorem use_tool_unregistered_error {α : Type} (a : BaseAgent α)
    (toStr : α → String) (tool_name : String) (kwargs : Kwargs)
    (h : a.tools.lookup tool_name = none) :
    a.use_tool toStr tool_name kwargs =
      (.error (.valueError ("Tool \x27" ++ tool_name ++ "\x27 not registered")), []) ∧
    a.notifications (a.use_tool toStr tool_name kwargs).2 = [] := by
  unfold BaseAgent.use_tool
  rw [h]
  exact ⟨rfl, rfl⟩

/-- C7 witness: calling the unregistered tool "missing" on `agentW`. -/
theorem use_tool_unregistered_error_witness :
    agentW.use_tool id "missing" [] =
      (.error (.valueError "Tool \x27missing\x27 not registered"), []) ∧
    agentW.notifications (agentW.use_tool id "missing" []).2 = [] :=
  use_tool_unregistered_error agentW id "missing" [] rfl

/-- C8: `llm_reason` on an agent with no attached LLM client fails with the
no-LLM-configured `ValueError`, appends nothing to the conversation history
(the history is exactly as before the call), and emits no events. -/
theorem llm_reason_requires_client {α : Type} (a : BaseAgent α) (prompt : String)
    (system_context : Option String) (emit_reasoning : Bool)
    (h : a.llm_client = none) :
    (a.llm_reason prompt system_context emit_reasoning).1 =
      .error (.valueError ("Agent " ++ a.name ++ " has no LLM client configured")) ∧
    (a.llm_reason prompt system_context emit_reasoning).2.1.conversation_history =
      a.conversation_history ∧
    (a.llm_reason prompt system_context emit_reasoning).2.2 = [] := by
  unfold BaseAgent.llm_reason llmReasonCore
  rw [h]
  exact ⟨rfl, rfl, rfl⟩

/-- C8 witness: `llm_reason` on `agentW`, which has no LLM client. -/
theorem llm_reason_requires_client_witness :
    (agentW.llm_reason "why" (some "ctx") true).1 =
      .error (.valueError "Agent A has no LLM client configured") ∧
    (agentW.llm_reason "why" (some "ctx") true).2.1.conversation_history =
      agentW.conversation_history ∧
    (agentW.llm_reason "why" (some "ctx") true).2.2 = [] :=
  llm_reason_requires_client agentW "why" (some "ctx") true rfl

/-- C6: against any backend that streams the reasoning chunks "a", "b"
followed by the content chunks "c", "d", `think_and_respond` yields exactly
the four kind-tagged chunks in emission order, and `simple_query` on the
same backend discards the reasoning fragments and returns the concatenated
content "cd". -/
theorem streaming_client_chunk_tagging (cfg : RLConfig) (backend : Backend)
    (messages : List Message) (prompt : String)
    (h1 : backend.streamResp (addThinkSystem messages) =
      [⟨[⟨some "a", none⟩]⟩, ⟨[⟨some "b", none⟩]⟩,
       ⟨[⟨none, some "c"⟩]⟩, ⟨[⟨none, some "d"⟩]⟩])
    (h2 : backend.streamResp (addThinkSystem (queryMessages prompt none)) =
      [⟨[⟨some "a", none⟩]⟩, ⟨[⟨some "b", none⟩]⟩,
       ⟨[⟨none, some "c"⟩]⟩, ⟨[⟨none, some "d"⟩]⟩]) :
    cfg.think_and_respond backend messages true =
      [⟨.reasoning, "a", cfg.model⟩, ⟨.reasoning, "b", cfg.model⟩,
       ⟨.content, "c", cfg.model⟩, ⟨.content, "d", cfg.model⟩] ∧
    cfg.simple_query backend prompt none = "cd" := by
  constructor
  · simp only [RLConfig.think_and_respond, if_true]
    rw [h1]
    rfl
  · simp only [RLConfig.simple_query, RLConfig.think_and_respond, if_true]
    rw [h2]
    rfl

/-- C6 witness: the synthetic backend `backendW` with `cfgW`. -/
theorem streaming_client_chunk_tagging_witness :
    cfgW.think_and_respond backendW [⟨"user", "hi"⟩] true =
      [⟨.reasoning, "a", cfgW.model⟩, ⟨.reasoning, "b", cfgW.model⟩,
       ⟨.content, "c", cfgW.model⟩, ⟨.content, "d", cfgW.model⟩] ∧
    cfgW.simple_query backendW "hi" none = "cd" :=
  streaming_client_chunk_tagging cfgW backendW [⟨"user", "hi"⟩] "hi" rfl rfl

/-- C9: construction of the streaming reasoning client fails with the
no-API-key `ValueError` when no explicit key is given and neither
`NVIDIA_API_KEY` nor `NGC_API_KEY` resolves to a non-empty value from the
environment; it succeeds whenever an explicit non-empty key is passed, and
whenever the environment resolution produces a truthy credential. -/
theorem reasoning_llm_init_credential :
    (∀ (env : List (String × String)) (model : String) (base_url : Option String)
       (minT maxT : Nat),
       truthyStr (getenv env "NVIDIA_API_KEY") = false →
       truthyStr (getenv env "NGC_API_KEY") = false →
       ReasoningLLM.init env model base_url none minT maxT =
         .error (.valueError
           "No API key found. Set NVIDIA_API_KEY or NGC_API_KEY environment variable")) ∧
    (∀ (env : List (String × String)) (model : String) (base_url : Option String)
       (key : String) (minT maxT : Nat), key ≠ "" →
       ReasoningLLM.init env model base_url (some key) minT maxT =
         .ok ⟨model, base_url.getD "https://integrate.api.nvidia.com/v1", key, minT, maxT⟩) ∧
    (∀ (env : List (String × String)) (model : String) (base_url : Option String)
       (minT maxT : Nat),
       truthyStr (resolveKey env none) = true →
       ∃ cfg, ReasoningLLM.init env model base_url none minT maxT = .ok cfg) := by
  refine ⟨?_, ?_, ?_⟩
  · intro env model base_url minT maxT h1 h2
    simp [ReasoningLLM.init, resolveKey, pyOrStr, h1, h2]
  · intro env model base_url key minT maxT h
    simp [ReasoningLLM.init, resolveKey, truthyStr, h]
  · intro env model base_url minT maxT h
    simp only [ReasoningLLM.init, h, if_true, ite_true]
    exact ⟨_, rfl⟩

/-- C9 witness: an empty environment fails; an explicit key succeeds; an
environment `NGC_API_KEY` succeeds. -/
theorem reasoning_llm_init_credential_witness :
    ReasoningLLM.init [] "m" none none 512 2048 =
      .error (.valueError
        "No API key found. Set NVIDIA_API_KEY or NGC_API_KEY environment variable") ∧
    ReasoningLLM.init [] "m" none (some "key") 512 2048 =
      .ok ⟨"m", (none : Option String).getD "https://integrate.api.nvidia.com/v1",
        "key", 512, 2048⟩ ∧
    ∃ cfg, ReasoningLLM.init [("NGC_API_KEY", "k2")] "m" none none 512 2048 = .ok cfg :=
  ⟨reasoning_llm_init_credential.1 [] "m" none 512 2048 rfl rfl,
   reasoning_llm_init_credential.2.1 [] "m" none "key" 512 2048 (by decide),
   reasoning_llm_init_credential.2.2 [("NGC_API_KEY", "k2")] "m" none 512 2048 rfl⟩

/-- C4: `assess_incident` classifies by keyword matching on the lowercased
symptom: a latency indicator yields priority `[metrics, recent_changes,
logs]`, otherwise an error indicator yields `[logs, recent_changes,
metrics]`, and any other symptom yields `[logs, metrics, recent_changes]`;
the order is stored in the working context under `investigation_priority`
and the emitted trace ends with a DECISION event stating the chosen
order. -/
theorem assess_incident_priority_rules (c : Commander) (incident : Incident) :
    (strContains (lowerStr (incident.get "symptom" "Unknown issue")) "latency" = true →
      (c.assess_incident incident).1.context.investigation_priority =
        some ["metrics", "recent_changes", "logs"] ∧
      (c.assess_incident incident).2 =
        [mkThink c.name "Beginning incident assessment..." [],
         mkThink c.name ("Incident: " ++ incident.get "symptom" "Unknown issue"
             ++ " on " ++ incident.get "service" "unknown")
           [("severity", .str (incident.get "severity" "unknown"))],
         mkThink c.name "Latency issue detected. Likely performance-related." [],
         mkDecide c.name "Investigation priority: metrics > recent_changes > logs"
           [("priority", .strList ["metrics", "recent_changes", "logs"])]]) ∧
    (strContains (lowerStr (incident.get "symptom" "Unknown issue")) "latency" = false →
     strContains (lowerStr (incident.get "symptom" "Unknown issue")) "error" = true →
      (c.assess_incident incident).1.context.investigation_priority =
        some ["logs", "recent_changes", "metrics"] ∧
      (c.assess_incident incident).2 =
        [mkThink c.name "Beginning incident assessment..." [],
         mkThink c.name ("Incident: " ++ incident.get "symptom" "Unknown issue"
             ++ " on " ++ incident.get "service" "unknown")
           [("severity", .str (incident.get "severity" "unknown"))],
         mkThink c.name "Error spike detected. Likely code or infrastructure issue." [],
         mkDecide c.name "Investigation priority: logs > recent_changes > metrics"
           [("priority", .strList ["logs", "recent_changes", "metrics"])]]) ∧
    (strContains (lowerStr (incident.get "symptom" "Unknown issue")) "latency" = false →
     strContains (lowerStr (incident.get "symptom" "Unknown issue")) "error" = false →
      (c.assess_incident incident).1.context.investigation_priority =
        some ["logs", "metrics", "recent_changes"] ∧
      (c.assess_incident incident).2 =
        [mkThink c.name "Beginning incident assessment..." [],
         mkThink c.name ("Incident: " ++ incident.get "symptom" "Unknown issue"
             ++ " on " ++ incident.get "service" "unknown")
           [("severity", .str (incident.get "severity" "unknown"))],
         mkThink c.name "Unclear symptom. Need comprehensive investigation." [],
         mkDecide c.name "Investigation priority: logs > metrics > recent_changes"
           [("priority", .strList ["logs", "metrics", "recent_changes"])]]) := by
  refine ⟨?_, ?_, ?_⟩
  · intro h
    simp only [Commander.assess_incident, h]
    exact ⟨rfl, rfl⟩
  · intro h1 h2
    simp only [Commander.assess_incident, h1, h2]
    exact ⟨rfl, rfl⟩
  · intro h1 h2
    simp only [Commander.assess_incident, h1, h2]
    exact ⟨rfl, rfl⟩

/-- C4 witness: the three spec symptoms "API latency spike",
"500 errors returned" and "users report weirdness". -/
theorem assess_incident_priority_rules_witness :
    ((commanderW.assess_incident [("symptom", "API latency spike")]).1.context.investigation_priority =
        some ["metrics", "recent_changes", "logs"] ∧
      (commanderW.assess_incident [("symptom", "API latency spike")]).2 =
        [mkThink commanderW.name "Beginning incident assessment..." [],
         mkThink commanderW.name ("Incident: "
             ++ Incident.get [("symptom", "API latency spike")] "symptom" "Unknown issue"
             ++ " on " ++ Incident.get [("symptom", "API latency spike")] "service" "unknown")
           [("severity", .str (Incident.get [("symptom", "API latency spike")] "severity" "unknown"))],
         mkThink commanderW.name "Latency issue detected. Likely performance-related." [],
         mkDecide commanderW.name "Investigation priority: metrics > recent_changes > logs"
           [("priority", .strList ["metrics", "recent_changes", "logs"])]]) ∧
    (commanderW.assess_incident incErrW).1.context.investigation_priority =
      some ["logs", "recent_changes", "metrics"] ∧
    (commanderW.assess_incident incOtherW).1.context.investigation_priority =
      some ["logs", "metrics", "recent_changes"] :=
  ⟨(assess_incident_priority_rules commanderW [("symptom", "API latency spike")]).1
      (by decide),
   ((assess_incident_priority_rules commanderW incErrW).2.1 (by decide) (by decide)).1,
   ((assess_incident_priority_rules commanderW incOtherW).2.2 (by decide) (by decide)).1⟩

/-- C3: the rule-based root-cause path returns the unknown string on an
empty incident; otherwise, casing on the lowercased symptom, a symptom
containing "latency" yields the connection-pool root cause together with
the pattern-tagged THINKING event, else one containing "error" yields the
error-rate root cause, else the unknown string; and with no LLM client
configured, `determine_root_cause` uses exactly this path and closes with
the confidence-0.5 THINKING and DECISION events. -/
theorem fallback_root_cause_rules (c : Commander) (incident : Incident) :
    (incident.isEmpty = true →
      c.fallback_root_cause_analysis incident =
        ("Unknown - requires deeper investigation", [])) ∧
    (incident.isEmpty = false →
     strContains (lowerStr (incident.get "symptom" "")) "latency" = true →
      c.fallback_root_cause_analysis incident =
        ("Database connection pool exhaustion due to recent config change",
         [mkThink c.name
            "Evidence pattern matches: latency spike + recent deploy + database metrics"
            [("pattern", .str "connection_pool_exhaustion")]])) ∧
    (incident.isEmpty = false →
     strContains (lowerStr (incident.get "symptom" "")) "latency" = false →
     strContains (lowerStr (incident.get "symptom" "")) "error" = true →
      c.fallback_root_cause_analysis incident =
        ("Increased error rate due to code deployment or external dependency failure",
         [])) ∧
    (incident.isEmpty = false →
     strContains (lowerStr (incident.get "symptom" "")) "latency" = false →
     strContains (lowerStr (incident.get "symptom" "")) "error" = false →
      c.fallback_root_cause_analysis incident =
        ("Unknown - requires deeper investigation", [])) ∧
    (c.llm_client = none →
      c.determine_root_cause =
        ((c.fallback_root_cause_analysis (c.context.incident.getD [])).1,
         { c with investigation_phase := "concluding" },
         [mkThink c.name "Analyzing all evidence to determine root cause..." []]
           ++ (c.fallback_root_cause_analysis (c.context.incident.getD [])).2
           ++ concludeEvents c.name
               (c.fallback_root_cause_analysis (c.context.incident.getD [])).1
               (1 / 2))) := by
  refine ⟨?_, ?_, ?_, ?_, ?_⟩
  · intro h
    simp only [Commander.fallback_root_cause_analysis, h, if_true]
  · intro h0 h1
    simp only [Commander.fallback_root_cause_analysis, h0, h1]
    rfl
  · intro h0 h1 h2
    simp only [Commander.fallback_root_cause_analysis, h0, h1, h2]
    rfl
  · intro h0 h1 h2
    simp only [Commander.fallback_root_cause_analysis, h0, h1, h2]
    rfl
  · intro h
    simp only [Commander.determine_root_cause, h]
    rfl

/-- C3 witness: the empty incident, the canonical latency incident (also
through `determine_root_cause` with no LLM client), the error incident and
the unclassified incident. -/
theorem fallback_root_cause_rules_witness :
    commanderW.fallback_root_cause_analysis [] =
      ("Unknown - requires deeper investigation", []) ∧
    commanderW.fallback_root_cause_analysis incLatW =
      ("Database connection pool exhaustion due to recent config change",
       [mkThink commanderW.name
          "Evidence pattern matches: latency spike + recent deploy + database metrics"
          [("pattern", .str "connection_pool_exhaustion")]]) ∧
    commanderW.fallback_root_cause_analysis incErrW =
      ("Increased error rate due to code deployment or external dependency failure",
       []) ∧
    commanderW.fallback_root_cause_analysis incOtherW =
      ("Unknown - requires deeper investigation", []) ∧
    commanderW.determine_root_cause =
      ((commanderW.fallback_root_cause_analysis (commanderW.context.incident.getD [])).1,
       { commanderW with investigation_phase := "concluding" },
       [mkThink commanderW.name "Analyzing all evidence to determine root cause..." []]
         ++ (commanderW.fallback_root_cause_analysis (commanderW.context.incident.getD [])).2
         ++ concludeEvents commanderW.name
             (commanderW.fallback_root_cause_analysis (commanderW.context.incident.getD [])).1
             (1 / 2)) :=
  ⟨(fallback_root_cause_rules commanderW []).1 (by decide),
   (fallback_root_cause_rules commanderW incLatW).2.1 (by decide) (by decide),
   (fallback_root_cause_rules commanderW incErrW).2.2.1 (by decide) (by decide) (by decide),
   (fallback_root_cause_rules commanderW incOtherW).2.2.2.1 (by decide) (by decide) (by decide),
   (fallback_root_cause_rules commanderW []).2.2.2.2 rfl⟩

/-- C10: when the symptom text contains both "latency" and "error", the
latency branch takes precedence in both keyword classifiers: `assess`
stores the priority order `[metrics, recent_changes, logs]` and the
rule-based root-cause path returns the connection-pool root cause. -/
theorem latency_branch_precedence (c : Commander) (incident : Incident)
    (hlat : strContains (lowerStr (incident.get "symptom" "")) "latency" = true)
    (_herr : strContains (lowerStr (incident.get "symptom" "")) "error" = true) :
    (c.assess_incident incident).1.context.investigation_priority =
      some ["metrics", "recent_changes", "logs"] ∧
    (c.fallback_root_cause_analysis incident).1 =
      "Database connection pool exhaustion due to recent config change" := by
  cases hl : List.lookup "symptom" incident with
  | none =>
    exfalso
    have hempty : incident.get "symptom" "" = "" := by
      simp [Incident.get, hl]
    rw [hempty] at hlat
    exact absurd hlat (by decide)
  | some v =>
    have hget : ∀ d, incident.get "symptom" d = v := by
      intro d
      simp [Incident.get, hl]
    rw [hget ""] at hlat
    have hne : incident ≠ [] := by
      intro he
      rw [he] at hl
      simp [List.lookup] at hl
    have hempty : incident.isEmpty = false := by
      simp [Incident.isEmpty, hne]
    constructor
    · simp only [Commander.assess_incident, hget, hlat]
      rfl
    · simp only [Commander.fallback_root_cause_analysis, hempty, hget, hlat]
      rfl

/-- C10 witness: a symptom mentioning both latency and errors. -/
theorem latency_branch_precedence_witness :
    (commanderW.assess_incident incBothW).1.context.investigation_priority =
      some ["metrics", "recent_changes", "logs"] ∧
    (commanderW.fallback_root_cause_analysis incBothW).1 =
      "Database connection pool exhaustion due to recent config change" :=
  latency_branch_precedence commanderW incBothW (by decide) (by decide)

/-- The assess phase only writes `investigation_priority` (and emits):
LLM client, stored incident, history and name are untouched. -/
theorem assess_incident_preserves (c : Commander) (i : Incident) :
    (c.assess_incident i).1.llm_client = c.llm_client ∧
    (c.assess_incident i).1.context.incident = c.context.incident ∧
    (c.assess_incident i).1.context.investigation_priority =
      some (if strContains (lowerStr (i.get "symptom" "Unknown issue")) "latency"
        then ["metrics", "recent_changes", "logs"]
        else if strContains (lowerStr (i.get "symptom" "Unknown issue")) "error"
        then ["logs", "recent_changes", "metrics"]
        else ["logs", "metrics", "recent_changes"]) ∧
    (c.assess_incident i).1.conversation_history = c.conversation_history ∧
    (c.assess_incident i).1.name = c.name := by
  refine ⟨rfl, rfl, ?_, rfl, rfl⟩
  unfold Commander.assess_incident
  by_cases h1 : strContains (lowerStr (i.get "symptom" "Unknown issue")) "latency"
  · simp [h1]
  · by_cases h2 : strContains (lowerStr (i.get "symptom" "Unknown issue")) "error"
    · simp [h1, h2]
    · simp [h1, h2]

/-- The delegation loop only appends to `assigned_tasks` and to the event
trace: client, context, history and name pass through the fold. -/
theorem delegate_foldl_preserves (l : List String) (acc : Commander × List AgentEvent) :
    (l.foldl Commander.delegateStep acc).1.llm_client = acc.1.llm_client ∧
    (l.foldl Commander.delegateStep acc).1.context = acc.1.context ∧
    (l.foldl Commander.delegateStep acc).1.conversation_history =
      acc.1.conversation_history ∧
    (l.foldl Commander.delegateStep acc).1.name = acc.1.name := by
  induction l generalizing acc with
  | nil => exact ⟨rfl, rfl, rfl, rfl⟩
  | cons a t ih =>
    simp only [List.foldl_cons]
    have h := ih (Commander.delegateStep acc a)
    exact ⟨h.1.trans rfl, h.2.1.trans rfl, h.2.2.1.trans rfl, h.2.2.2.trans rfl⟩

/-- The delegate phase preserves client, context, history and name. -/
theorem delegate_investigation_preserves (c : Commander) :
    (c.delegate_investigation).1.llm_client = c.llm_client ∧
    (c.delegate_investigation).1.context = c.context ∧
    (c.delegate_investigation).1.conversation_history = c.conversation_history ∧
    (c.delegate_investigation).1.name = c.name := by
  unfold Commander.delegate_investigation
  have h := delegate_foldl_preserves
    (({ c with investigation_phase := "delegating" } : Commander).context.investigation_priority.getD [])
    ({ c with investigation_phase := "delegating" }, [])
  exact ⟨h.1.trans rfl, h.2.1.trans rfl, h.2.2.1.trans rfl, h.2.2.2.trans rfl⟩

/-- The synthesize phase only sets the phase tag and emits. -/
theorem synthesize_findings_preserves (c : Commander) :
    (c.synthesize_findings).1.llm_client = c.llm_client ∧
    (c.synthesize_findings).1.context = c.context ∧
    (c.synthesize_findings).1.conversation_history = c.conversation_history ∧
    (c.synthesize_findings).1.name = c.name :=
  ⟨rfl, rfl, rfl, rfl⟩

/-- The root-cause string of the rule-based path depends only on the
incident, not on the commander state. -/
theorem fallback_fst_state_free (c c' : Commander) (i : Incident) :
    (c.fallback_root_cause_analysis i).1 = (c'.fallback_root_cause_analysis i).1 := by
  unfold Commander.fallback_root_cause_analysis
  by_cases h1 : i.isEmpty
  · simp [h1]
  · by_cases h2 : strContains (lowerStr (i.get "symptom" "")) "latency"
    · simp [h1, h2]
    · by_cases h3 : strContains (lowerStr (i.get "symptom" "")) "error"
      · simp [h1, h2, h3]
      · simp [h1, h2, h3]

/-- When the configured client's stream always raises, the conclude phase
catches the exception, emits the fallback THINKING event and returns the
rule-based root cause. -/
theorem determine_root_cause_client_fails (c : Commander) (client : LLMClient)
    (hc : c.llm_client = some client)
    (hfail : ∀ msgs, ((client.stream msgs).2).isSome = true) :
    (c.determine_root_cause).1 =
      (c.fallback_root_cause_analysis (c.context.incident.getD [])).1 ∧
    ∃ m, mkThink c.name
        ("LLM reasoning failed: " ++ m ++ ". Falling back to rule-based analysis.") []
      ∈ (c.determine_root_cause).2.2 := by
  obtain ⟨m, hm⟩ := Option.isSome_iff_exists.mp
    (hfail [⟨"system", commanderSystemContext⟩,
      ⟨"user", buildPrompt (c.context.incident.getD [])
        (c.context.investigation_priority.getD [])⟩])
  have hred : c.determine_root_cause =
      (let c1 : Commander := { c with investigation_phase := "concluding" }
       let incident := c.context.incident.getD []
       let lr := llmReasonCore c.name (some client) c.conversation_history
         (buildPrompt incident (c.context.investigation_priority.getD []))
         (some commanderSystemContext) true
       let c2 : Commander := { c1 with conversation_history := lr.2.1 }
       match lr.1 with
       | .ok response =>
         (response.trim, c2,
           [mkThink c.name "Analyzing all evidence to determine root cause..." [],
            mkThink c.name "Using LLM reasoning to analyze incident..." []]
             ++ lr.2.2 ++ concludeEvents c.name response.trim (85 / 100))
       | .error err =>
         ((c2.fallback_root_cause_analysis incident).1, c2,
           [mkThink c.name "Analyzing all evidence to determine root cause..." [],
            mkThink c.name "Using LLM reasoning to analyze incident..." []]
             ++ lr.2.2
             ++ [mkThink c.name ("LLM reasoning failed: " ++ err.msg
                  ++ ". Falling back to rule-based analysis.") []]
             ++ (c2.fallback_root_cause_analysis incident).2
             ++ concludeEvents c.name (c2.fallback_root_cause_analysis incident).1
                  (1 / 2)) ) := by
    simp only [Commander.determine_root_cause, hc]
  rw [hred]
  simp only [llmReasonCore, List.singleton_append, List.cons_append, List.nil_append, hm]
  constructor
  · exact fallback_fst_state_free _ _ _
  · exact ⟨m, by simp [PyError.msg]⟩

/-- Helper: a full run with an always-raising LLM client still resolves,
its root cause is the rule-based one, and the fallback THINKING event is in
the trace. -/
theorem run_client_fails (c : Commander) (ctx : RunCtx) (client : LLMClient)
    (hc : c.llm_client = some client)
    (hfail : ∀ msgs, ((client.stream msgs).2).isSome = true) :
    (c.run ctx).1.status = "resolved" ∧
    (c.run ctx).1.root_cause =
      (c.fallback_root_cause_analysis (ctx.incident.getD [])).1 ∧
    ∃ m, mkThink c.name
        ("LLM reasoning failed: " ++ m ++ ". Falling back to rule-based analysis.") []
      ∈ (c.run ctx).2.2 := by
  have hcA : ((({ c with context :=
      { c.context with incident := some (ctx.incident.getD []) } } : Commander).assess_incident
        (ctx.incident.getD [])).1).llm_client = some client :=
    (assess_incident_preserves _ _).1.trans hc
  have hcD : (((({ c with context :=
      { c.context with incident := some (ctx.incident.getD []) } } : Commander).assess_incident
        (ctx.incident.getD [])).1.delegate_investigation).1).llm_client = some client :=
    (delegate_investigation_preserves _).1.trans hcA
  have hcS : ((((({ c with context :=
      { c.context with incident := some (ctx.incident.getD []) } } : Commander).assess_incident
        (ctx.incident.getD [])).1.delegate_investigation).1.synthesize_findings).1).llm_client =
      some client :=
    (synthesize_findings_preserves _).1.trans hcD
  have hctx : ((((({ c with context :=
      { c.context with incident := some (ctx.incident.getD []) } } : Commander).assess_incident
        (ctx.incident.getD [])).1.delegate_investigation).1.synthesize_findings).1).context =
      ((({ c with context :=
      { c.context with incident := some (ctx.incident.getD []) } } : Commander).assess_incident
        (ctx.incident.getD [])).1).context :=
    (synthesize_findings_preserves _).2.1.trans (delegate_investigation_preserves _).2.1
  have hinc : ((((({ c with context :=
      { c.context with incident := some (ctx.incident.getD []) } } : Commander).assess_incident
        (ctx.incident.getD [])).1.delegate_investigation).1.synthesize_findings).1).context.incident =
      some (ctx.incident.getD []) := by
    rw [hctx]
    exact (assess_incident_preserves _ _).2.1.trans rfl
  have hname : ((((({ c with context :=
      { c.context with incident := some (ctx.incident.getD []) } } : Commander).assess_incident
        (ctx.incident.getD [])).1.delegate_investigation).1.synthesize_findings).1).name =
      c.name := by
    refine (synthesize_findings_preserves _).2.2.2.trans
      ((delegate_investigation_preserves _).2.2.2.trans ?_)
    exact (assess_incident_preserves _ _).2.2.2.2.trans rfl
  have hMain := determine_root_cause_client_fails
    (((({ c with context :=
      { c.context with incident := some (ctx.incident.getD []) } } : Commander).assess_incident
        (ctx.incident.getD [])).1.delegate_investigation).1.synthesize_findings).1
    client hcS hfail
  refine ⟨rfl, ?_, ?_⟩
  · have hrc : (c.run ctx).1.root_cause =
        (((((({ c with context :=
          { c.context with incident := some (ctx.incident.getD []) } } : Commander).assess_incident
            (ctx.incident.getD [])).1.delegate_investigation).1.synthesize_findings).1).determine_root_cause).1 :=
      rfl
    rw [hrc, hMain.1, hinc]
    exact fallback_fst_state_free _ _ _
  · obtain ⟨m, hm⟩ := hMain.2
    rw [hname] at hm
    refine ⟨m, ?_⟩
    have htr : (c.run ctx).2.2 =
        ((({ c with context :=
          { c.context with incident := some (ctx.incident.getD []) } } : Commander).assess_incident
            (ctx.incident.getD [])).2
          ++ ((({ c with context :=
          { c.context with incident := some (ctx.incident.getD []) } } : Commander).assess_incident
            (ctx.incident.getD [])).1.delegate_investigation).2
          ++ (((({ c with context :=
          { c.context with incident := some (ctx.incident.getD []) } } : Commander).assess_incident
            (ctx.incident.getD [])).1.delegate_investigation).1.synthesize_findings).2)
          ++ (((((({ c with context :=
          { c.context with incident := some (ctx.incident.getD []) } } : Commander).assess_incident
            (ctx.incident.getD [])).1.delegate_investigation).1.synthesize_findings).1).determine_root_cause).2.2 :=
      rfl
    rw [htr]
    exact List.mem_append.mpr (Or.inr hm)

/-- C2: `run` composes the four phases — assess, delegate, synthesize,
conclude — strictly in that order, and always returns a mapping whose
status is exactly "resolved" and whose root cause is the concluded string;
in particular, when the configured LLM client's reasoning call raises
during the conclusion phase, the exception is caught, a THINKING event
noting the fallback is in the trace, the rule-based root cause is used,
and the run still terminates resolved. -/
theorem commander_run_always_resolves :
    (∀ (c : Commander) (ctx : RunCtx), (c.run ctx).1.status = "resolved") ∧
    (∀ (c : Commander) (ctx : RunCtx),
      ∃ c1 evA c2 evD c3 evS r,
        ({ c with context := { c.context with incident := some (ctx.incident.getD []) } }
            : Commander).assess_incident (ctx.incident.getD []) = (c1, evA) ∧
        c1.delegate_investigation = (c2, evD) ∧
        c2.synthesize_findings = (c3, evS) ∧
        c3.determine_root_cause = r ∧
        c.run ctx =
          (⟨"resolved", r.1, r.2.1.context.timeline.getD []⟩, r.2.1,
            evA ++ evD ++ evS ++ r.2.2)) ∧
    (∀ (c : Commander) (ctx : RunCtx) (client : LLMClient),
      c.llm_client = some client →
      (∀ msgs, ((client.stream msgs).2).isSome = true) →
      (c.run ctx).1.status = "resolved" ∧
      (c.run ctx).1.root_cause =
        (c.fallback_root_cause_analysis (ctx.incident.getD [])).1 ∧
      ∃ m, mkThink c.name
          ("LLM reasoning failed: " ++ m ++ ". Falling back to rule-based analysis.") []
        ∈ (c.run ctx).2.2) := by
  refine ⟨fun c ctx => rfl, fun c ctx => ?_, fun c ctx client hc hfail =>
    run_client_fails c ctx client hc hfail⟩
  exact ⟨_, _, _, _, _, _, _, rfl, rfl, rfl, rfl, rfl⟩

/-- C2 witness: the always-failing client `clientFailW` on the canonical
latency incident still yields a resolved run with the rule-based root
cause and the fallback THINKING event. -/
theorem commander_run_always_resolves_witness :
    (commanderW.run ⟨some incLatW⟩).1.status = "resolved" ∧
    (commanderFailW.run ⟨some incLatW⟩).1.status = "resolved" ∧
    (commanderFailW.run ⟨some incLatW⟩).1.root_cause =
      (commanderFailW.fallback_root_cause_analysis
        ((RunCtx.mk (some incLatW)).incident.getD [])).1 ∧
    ∃ m, mkThink commanderFailW.name
        ("LLM reasoning failed: " ++ m ++ ". Falling back to rule-based analysis.") []
      ∈ (commanderFailW.run ⟨some incLatW⟩).2.2 := by
  have h := commander_run_always_resolves.2.2 commanderFailW ⟨some incLatW⟩ clientFailW
    rfl (fun _ => rfl)
  exact ⟨commander_run_always_resolves.1 commanderW ⟨some incLatW⟩, h.1, h.2.1, h.2.2⟩

end WarRoom
